import Mathlib

/-!
Shallow embedding of src/ipywidgets/widgets/interaction.py.

The module infers interactive controls from a function signature plus
caller-supplied overrides, assembles them into a container, and re-invokes
the target function on events.  Python ints and floats are modelled by the
tagged type PyNum (floats as exact rationals); Python values and widgets by
the single inductive PyVal; exceptions by Except PyError; the mutable
kwargs dict by an ordered association list.
-/

namespace Interaction

/-- Decidable equality for Except, used to evaluate the model on concrete
inputs. -/
instance exceptDecEq {ε α : Type} [DecidableEq ε] [DecidableEq α] :
    DecidableEq (Except ε α) := fun x y =>
  match x, y with
  | .ok a, .ok b => decidable_of_iff (a = b) (by simp)
  | .error a, .error b => decidable_of_iff (a = b) (by simp)
  | .ok _, .error _ => isFalse (by simp)
  | .error _, .ok _ => isFalse (by simp)

/-- Python exceptions raised by the modelled code. -/
inductive PyError where
  | valueError (msg : String)
  | typeError (msg : String)
  | attributeError (msg : String)
deriving Repr, DecidableEq

/-- A Python number: an int, or a float modelled as an exact rational. -/
inductive PyNum where
  | pint (n : Int)
  | pfloat (q : Rat)
deriving Repr, DecidableEq

namespace PyNum

/-- Numeric value of a Python number. -/
def toRat : PyNum → Rat
  | pint n => (n : Rat)
  | pfloat q => q

/-- The underlying Int of a Python int (floor for a float; only used under
an isInt guard). -/
def toInt : PyNum → Int
  | pint n => n
  | pfloat q => ⌊q⌋

/-- Python isinstance(x, Integral) for a number (bool is modelled apart). -/
def isInt : PyNum → Bool
  | pint _ => true
  | pfloat _ => false

/-- Python type(x) == type(y) for two numbers. -/
def sameType : PyNum → PyNum → Bool
  | pint _, pint _ => true
  | pfloat _, pfloat _ => true
  | _, _ => false

/-- Python binary subtraction: int - int is int, otherwise float. -/
def psub : PyNum → PyNum → PyNum
  | pint a, pint b => pint (a - b)
  | a, b => pfloat (a.toRat - b.toRat)

/-- Python binary addition: int + int is int, otherwise float. -/
def padd : PyNum → PyNum → PyNum
  | pint a, pint b => pint (a + b)
  | a, b => pfloat (a.toRat + b.toRat)

/-- Python binary multiplication: int * int is int, otherwise float. -/
def pmul : PyNum → PyNum → PyNum
  | pint a, pint b => pint (a * b)
  | a, b => pfloat (a.toRat * b.toRat)

/-- Python unary negation, preserving the numeric type. -/
def pneg : PyNum → PyNum
  | pint a => pint (-a)
  | pfloat q => pfloat (-q)

/-- Python true division (the module does from Math import division, so /
always yields a float). -/
def ptruediv (a b : PyNum) : PyNum := pfloat (a.toRat / b.toRat)

/-- Python floor division: int // int is an int (floored), otherwise a
float holding the floor. -/
def pfloordiv : PyNum → PyNum → PyNum
  | pint a, pint b => pint (Int.fdiv a b)
  | a, b => pfloat ((⌊a.toRat / b.toRat⌋ : Int) : Rat)

/-- Python int(x) conversion of a float: truncation toward zero. -/
def pytrunc (q : Rat) : Int := if 0 ≤ q then ⌊q⌋ else ⌈q⌉

end PyNum

open PyNum

/-- Error message of _get_min_max_value when max is not greater than min. -/
def rangeErrMsg : String := "max must be greater than min"

/-- Error message of _get_min_max_value when the argument combination is
not supported. -/
def inferErrMsg : String := "unable to infer range, value"

/-- Embedding of _get_min_max_value (interaction.py lines 42-68): return
min, max, value given inputs with possible None; optionally snap the value
onto the min + k*step lattice. -/
def getMinMaxBase (min? max? value? : Option PyNum) :
    Except PyError (PyNum × PyNum × PyNum) :=
  match value? with
  | none =>
    match min?, max? with
    | some mn, some mx =>
      if mx.toRat > mn.toRat then
        let diff := psub mx mn
        let value0 := padd mn (ptruediv diff (pint 2))
        -- Python: if not isinstance(value, type(diff)): value = min + diff // 2
        let value := if sameType value0 diff then value0
                     else padd mn (pfloordiv diff (pint 2))
        .ok (mn, mx, value)
      else
        .error (.valueError rangeErrMsg)
    | _, _ => .error (.typeError "cannot compare None")
  | some value =>
    match min?, max? with
    | none, none =>
      if value.toRat = 0 then
        .ok (value, padd value (pint 1), value)
      else if value.toRat > 0 then
        .ok (pneg value, pmul (pint 3) value, value)
      else
        .ok (pmul (pint 3) value, pneg value, value)
    | _, _ => .error (.valueError inferErrMsg)

/-- The final step of _get_min_max_value (lines 64-67): when a step is
given, snap the value onto the min + k*step lattice through int() of the
true-division quotient. -/
def snapStep (mn value : PyNum) (step? : Option PyNum) : PyNum :=
  match step? with
  | none => value
  | some step =>
    let tick := pytrunc ((psub value mn).ptruediv step).toRat
    padd mn (pmul (pint tick) step)

def getMinMaxValue (min? max? value? step? : Option PyNum) :
    Except PyError (PyNum × PyNum × PyNum) :=
  match getMinMaxBase min? max? value? with
  | .error e => .error e
  | .ok (mn, mx, value) => .ok (mn, mx, snapStep mn value step?)

/-- A Python value of the modelled fragment: scalars, tuples, lists, dicts,
None, and the widget objects the module handles.  Widgets are constructors
of the same type because a pre-built widget and a fixed wrapper can occur
as abbreviation values.  Each interactive widget carries its description
and its kwarg binding key (the source sets widget.description and
widget.kwarg as attributes). -/
inductive PyVal where
  | pystr (s : String)
  | pybool (b : Bool)
  | num (n : PyNum)
  | tup (l : List PyVal)
  | plist (l : List PyVal)
  | pdict (entries : List (String × PyVal))
  | pynone
  | wText (value : String) (descr kwarg : String)
  | wCheckbox (value : Bool) (descr kwarg : String)
  | wIntSlider (value mn mx : PyNum) (step : Option PyNum) (descr kwarg : String)
  | wFloatSlider (value mn mx : PyNum) (step : Option PyNum) (descr kwarg : String)
  | wDropdown (options : PyVal) (descr kwarg : String)
  | wFixed (value : PyVal) (descr kwarg : String)
  | wButton (descr : String) (disabled : Bool)
  | wOutput
deriving Repr

namespace PyVal

/-- Python isinstance(w, ValueWidget): the toolkit value widgets.  The
fixed pseudo-widget subclasses HasTraits only, so it is not a ValueWidget;
Button and Output are widgets but not value widgets. -/
def isValueWidget : PyVal → Bool
  | wText _ _ _ | wCheckbox _ _ _ | wIntSlider _ _ _ _ _ _
  | wFloatSlider _ _ _ _ _ _ | wDropdown _ _ _ => true
  | _ => false

/-- Python isinstance(w, fixed). -/
def isFixed : PyVal → Bool
  | wFixed _ _ _ => true
  | _ => false

/-- Python isinstance(w, DOMWidget): every toolkit widget is a DOMWidget;
the fixed pseudo-widget is not (it subclasses HasTraits only, interaction.py
line 414), which is what excludes it from the children list (line 135). -/
def isDOMWidget : PyVal → Bool
  | wText _ _ _ | wCheckbox _ _ _ | wIntSlider _ _ _ _ _ _
  | wFloatSlider _ _ _ _ _ _ | wDropdown _ _ _ | wButton _ _ | wOutput => true
  | _ => false

/-- The widget description attribute (empty string when unset, matching the
Unicode trait defaults). -/
def description : PyVal → String
  | wText _ d _ | wCheckbox _ d _ | wIntSlider _ _ _ _ d _
  | wFloatSlider _ _ _ _ d _ | wDropdown _ d _ | wFixed _ d _ => d
  | wButton d _ => d
  | _ => ""

/-- Assignment widget.description = d. -/
def setDescription (w : PyVal) (d : String) : PyVal :=
  match w with
  | wText v _ k => wText v d k
  | wCheckbox v _ k => wCheckbox v d k
  | wIntSlider v a b s _ k => wIntSlider v a b s d k
  | wFloatSlider v a b s _ k => wFloatSlider v a b s d k
  | wDropdown o _ k => wDropdown o d k
  | wFixed v _ k => wFixed v d k
  | wButton _ b => wButton d b
  | w => w

/-- Assignment widget.kwarg = n (the binding key attached in
widgets_from_abbreviations, line 224). -/
def setKwarg (w : PyVal) (n : String) : PyVal :=
  match w with
  | wText v d _ => wText v d n
  | wCheckbox v d _ => wCheckbox v d n
  | wIntSlider v a b s d _ => wIntSlider v a b s d n
  | wFloatSlider v a b s d _ => wFloatSlider v a b s d n
  | wDropdown o d _ => wDropdown o d n
  | wFixed v d _ => wFixed v d n
  | w => w

/-- The widget kwarg attribute. -/
def kwargName : PyVal → String
  | wText _ _ k | wCheckbox _ _ k | wIntSlider _ _ _ _ _ k
  | wFloatSlider _ _ _ _ _ k | wDropdown _ _ k | wFixed _ _ k => k
  | _ => ""

end PyVal

/-- Modelled from the spec: the Dropdown control of the excluded toolkit
normalizes a name-to-value mapping into the ordered sequence of
(name, value) option pairs, in mapping iteration order, and uses a bare
sequence directly as the option list (spec section 4.2 rule 4). -/
def normalizeOptions : PyVal → PyVal
  | .pdict es => .plist (es.map fun e => .tup [.pystr e.1, e.2])
  | o => o

/-- Modelled from the spec: a choice control yields its selected option
(the first one initially) as underlying value; for a (name, value) pair the
underlying value is the second component (spec section 4.3). -/
def dropdownSelected : PyVal → PyVal
  | .plist (.tup [.pystr _, v] :: _) => v
  | .plist (v :: _) => v
  | _ => .pynone

/-- Modelled from the spec: value extraction for one control.  The toolkit
value widgets (outside src) each expose get_interact_value returning their
current value (spec sections 4.3 and 6).  The fixed class IS in src
(interaction.py lines 414-419): it subclasses HasTraits only and defines
only the value and description traits, and neither it nor HasTraits defines
get_interact_value, so the attribute lookup widget.get_interact_value in
call_f (line 171) raises AttributeError on a fixed instance. -/
def getInteractValue : PyVal → Except PyError PyVal
  | .wText v _ _ => .ok (.pystr v)
  | .wCheckbox b _ _ => .ok (.pybool b)
  | .wIntSlider v _ _ _ _ _ => .ok (.num v)
  | .wFloatSlider v _ _ _ _ _ => .ok (.num v)
  | .wDropdown opts _ _ => .ok (dropdownSelected opts)
  | _ => .error (.attributeError "object has no attribute get_interact_value")

/-- Modelled from the spec: best-effort assignment widget.value = default
with rejection swallowed (interaction.py lines 236-240 and 252-257; the
accept/reject rule itself belongs to the toolkit trait validation outside
src — a range control accepts an in-range value of its numeric kind,
spec sections 4.2 and 7).  Dropdown selection state is not tracked, so the
assignment is modelled as a no-op there. -/
def trySetValue (w : PyVal) (d : PyVal) : PyVal :=
  match w, d with
  | .wIntSlider _ a b s ds k, .num n =>
      if n.isInt ∧ a.toRat ≤ n.toRat ∧ n.toRat ≤ b.toRat then
        .wIntSlider n a b s ds k
      else .wIntSlider (match w with | .wIntSlider v _ _ _ _ _ => v | _ => n) a b s ds k
  | .wFloatSlider _ a b s ds k, .num n =>
      if a.toRat ≤ n.toRat ∧ n.toRat ≤ b.toRat then .wFloatSlider n a b s ds k
      else w
  | w, _ => w

/-- Error message of widget_from_tuple for a nonpositive step
(interaction.py line 292). -/
def stepErrMsg : String := "step must be greater than 0"

/-- Embedding of interactive.widget_from_single_value (lines 263-277):
make a widget from a single scalar, or None. -/
def widgetFromSingleValue (o : PyVal) : Except PyError (Option PyVal) :=
  match o with
  | .pystr s => .ok (some (.wText s "" ""))
  | .pybool b => .ok (some (.wCheckbox b "" ""))
  | .num n =>
      match getMinMaxValue none none (some n) none with
      | .error e => .error e
      | .ok (mn, mx, _) =>
          if n.isInt then .ok (some (.wIntSlider n mn mx none "" ""))
          else .ok (some (.wFloatSlider n mn mx none "" ""))
  | _ => .ok none

/-- Embedding of interactive.widget_from_tuple (lines 279-298): a 2-tuple
of reals gives a slider at the midpoint, a 3-tuple additionally checks
step greater than 0 and snaps the value onto the step lattice; any other
tuple falls through to the implicit None return.  (The Python quirk that
bool is a subtype of int, so a tuple of bools would match Real, is outside
the modelled fragment: booleans are modelled as non-numbers.) -/
def widgetFromTuple (o : PyVal) : Except PyError (Option PyVal) :=
  match o with
  | .tup [.num a, .num b] =>
      match getMinMaxValue (some a) (some b) none none with
      | .error e => .error e
      | .ok (mn, mx, value) =>
          if a.isInt && b.isInt then
            .ok (some (.wIntSlider value mn mx none "" ""))
          else .ok (some (.wFloatSlider value mn mx none "" ""))
  | .tup [.num a, .num b, .num s] =>
      if s.toRat ≤ 0 then .error (.valueError stepErrMsg)
      else
        match getMinMaxValue (some a) (some b) none (some s) with
        | .error e => .error e
        | .ok (mn, mx, value) =>
            if a.isInt && b.isInt && s.isInt then
              .ok (some (.wIntSlider value mn mx (some s) "" ""))
            else .ok (some (.wFloatSlider value mn mx (some s) "" ""))
  | _ => .ok none

/-- Embedding of interactive.widget_from_iterable (lines 300-311): a list
or dict becomes a Dropdown holding those options (a non-dict Mapping is
converted with list(o.items()), which normalizeOptions also captures). -/
def widgetFromIterable (o : PyVal) : PyVal :=
  .wDropdown (normalizeOptions o) "" ""

/-- Embedding of interactive.widget_from_abbrev (lines 228-261): dispatch
on the shape of the abbreviation, first match wins: pre-built value widget
or fixed returned as-is; tuple; single scalar; iterable; otherwise None.
A supplied default is applied best-effort to tuple and iterable widgets
(a None widget from a malformed tuple swallows the attempt through the
same except. Exception: pass). -/
def widgetFromAbbrev (ab : PyVal) (default : Option PyVal) :
    Except PyError (Option PyVal) :=
  if ab.isValueWidget || ab.isFixed then
    .ok (some ab)
  else
    match ab with
    | .tup _ =>
        match widgetFromTuple ab with
        | .error e => .error e
        | .ok (some w) =>
            match default with
            | some d => .ok (some (trySetValue w d))
            | none => .ok (some w)
        | .ok none => .ok none
    | _ =>
        match widgetFromSingleValue ab with
        | .error e => .error e
        | .ok (some w) => .ok (some w)
        | .ok none =>
            match ab with
            | .plist _ | .pdict _ =>
                let w := widgetFromIterable ab
                match default with
                | some d => .ok (some (trySetValue w d))
                | none => .ok (some w)
            | _ => .ok none

/-- Error message of widgets_from_abbreviations for an unclassifiable
abbreviation (line 219). -/
def cannotTransformMsg : String := "cannot be transformed to a widget"

/-- Embedding of interactive.widgets_from_abbreviations (lines 212-226):
build one widget per (name, abbrev, default) triple; a widget that is
neither a ValueWidget nor a fixed is an error (ValueError when the factory
returned None, TypeError otherwise); a widget without a description is
labelled with its parameter name, and the name is attached as the kwarg
binding key. -/
def widgetsFromAbbreviations :
    List (String × PyVal × Option PyVal) → Except PyError (List PyVal)
  | [] => .ok []
  | (name, ab, default) :: rest =>
      match widgetFromAbbrev ab default with
      | .error e => .error e
      | .ok none => .error (.valueError cannotTransformMsg)
      | .ok (some w) =>
          if w.isValueWidget || w.isFixed then
            let w1 := if w.description = "" then w.setDescription name else w
            let w2 := w1.setKwarg name
            match widgetsFromAbbreviations rest with
            | .error e => .error e
            | .ok tail => .ok (w2 :: tail)
          else .error (.typeError "is not a ValueWidget")

/-- The kind of a function parameter, as reported by inspect.signature.
The source handles POSITIONAL_OR_KEYWORD, KEYWORD_ONLY and VAR_KEYWORD
explicitly; VAR_POSITIONAL and POSITIONAL_ONLY parameters match none of
its branches and yield nothing. -/
inductive ParamKind where
  | posOnly
  | posOrKw
  | kwOnly
  | varPos
  | varKw
deriving Repr, DecidableEq

/-- A parameter descriptor from the function signature: name, kind,
declared default and annotation (none models the inspect empty
sentinel). -/
structure Param where
  name : String
  kind : ParamKind
  default : Option PyVal
  annotation : Option PyVal
deriving Repr

/-- Lookup in the kwargs dict, modelled as an ordered association list. -/
def kwLookup : List (String × PyVal) → String → Option PyVal
  | [], _ => none
  | e :: r, n => if e.1 = n then some e.2 else kwLookup r n

/-- Python kwargs.pop(n): the dict without key n, order preserved. -/
def kwErase : List (String × PyVal) → String → List (String × PyVal)
  | [], _ => []
  | e :: r, n => if e.1 = n then kwErase r n else e :: kwErase r n

/-- Python dict assignment d[n] = v: overwrite in place, else append. -/
def dictSet : List (String × PyVal) → String → PyVal → List (String × PyVal)
  | [], n, v => [(n, v)]
  | e :: r, n, v => if e.1 = n then (n, v) :: r else e :: dictSet r n v

/-- Embedding of _yield_abbreviations_for_parameter (lines 70-91) as the
consumer observes it: the list of yielded (name, value, default) triples
(value none models the empty sentinel of the not_found triple) together
with the kwargs dict after its pops.  A positional-or-keyword or
keyword-only parameter takes, in priority order, the caller override
(popped from kwargs), the annotation, then the declared default, and
yields the not_found triple when none applies; a VAR_KEYWORD parameter
drains kwargs, yielding every remaining item with an empty default;
other kinds yield nothing. -/
def yieldAbbrevs (p : Param) (kw : List (String × PyVal)) :
    List (String × Option PyVal × Option PyVal) × List (String × PyVal) :=
  match p.kind with
  | .posOrKw | .kwOnly =>
    match kwLookup kw p.name with
    | some v => ([(p.name, some v, p.default)], kwErase kw p.name)
    | none =>
      match p.annotation with
      | some a => ([(p.name, some a, p.default)], kw)
      | none =>
        match p.default with
        | some d => ([(p.name, some d, some d)], kw)
        | none => ([(p.name, none, none)], kw)
  | .varKw => (kw.map fun e => (e.1, some e.2, none), [])
  | _ => ([], kw)

/-- Error message of find_abbreviations for a parameter with no usable
abbreviation (line 207). -/
def missingAbbrevMsg (n : String) : String :=
  "cannot find widget or abbreviation for argument: " ++ n

/-- The consumer loop of find_abbreviations over one parameter run of
yields: raise at the first triple whose value is the empty sentinel,
otherwise keep the triples. -/
def processYields : List (String × Option PyVal × Option PyVal) →
    Except PyError (List (String × PyVal × Option PyVal))
  | [] => .ok []
  | (n, none, _) :: _ => .error (.valueError (missingAbbrevMsg n))
  | (n, some v, d) :: rest =>
      match processYields rest with
      | .error e => .error e
      | .ok tail => .ok ((n, v, d) :: tail)

/-- Embedding of interactive.find_abbreviations (lines 193-209) for an
introspectable function: walk the parameters in declaration order,
collecting the yielded triples and threading the kwargs dict through
the pops; error out at the first parameter with no abbreviation. -/
def findAbbreviations (ps : List Param) (kw : List (String × PyVal)) :
    Except PyError (List (String × PyVal × Option PyVal)) :=
  match ps with
  | [] => .ok []
  | p :: rest =>
      match processYields (yieldAbbrevs p kw).1 with
      | .error e => .error e
      | .ok here =>
          match findAbbreviations rest (yieldAbbrevs p kw).2 with
          | .error e => .error e
          | .ok tail => .ok (here ++ tail)

/-- True when a keyword argument named n can bind to a declared parameter
of the function. -/
def bindsByName (ps : List Param) (n : String) : Bool :=
  ps.any fun p => (p.kind == .posOrKw || p.kind == .kwOnly) && p.name == n

/-- Modelled from the spec: the call-contract validation performed through
the stdlib inspect.getcallargs (line 128, stdlib code not in src): calling
f with exactly the given keyword arguments must bind every name (a name
that matches no named parameter of a function without a VAR_KEYWORD
parameter is an unexpected keyword), and must leave no required parameter
unbound (a POSITIONAL_ONLY parameter can never be bound by a keyword-only
call, so such a parameter without a default is always missing; spec
sections 4.1 and 7b). -/
def getcallargs (ps : List Param) (kw : List (String × PyVal)) :
    Except PyError Unit :=
  let hasVarKw := ps.any fun p => p.kind == .varKw
  match kw.find? (fun e => !(bindsByName ps e.1) && !hasVarKw) with
  | some e => .error (.typeError ("got an unexpected keyword argument " ++ e.1))
  | none =>
    let missing := ps.find? fun p =>
      p.default.isNone &&
        ((p.kind == .posOnly) ||
         ((p.kind == .posOrKw || p.kind == .kwOnly) && (kwLookup kw p.name).isNone))
    match missing with
    | some p => .error (.typeError ("missing a required argument: " ++ p.name))
    | none => .ok ()

/-- The container state after construction: the kwargs widgets (including
fixed wrappers), the displayed children, the mode flags, the trigger
disabled flag, the last result and the invocation state mapping. -/
structure InteractiveState where
  widgets : List PyVal
  children : List PyVal
  manual : Bool
  clearOutput : Bool
  buttonDisabled : Bool
  result : PyVal
  curKwargs : List (String × PyVal)
deriving Repr

/-- Embedding of interactive.init (lines 108-162) for an introspectable
function, after the reserved keys clear_output and manual have been
popped (they are received here as flags): resolve the abbreviations,
validate the resolved name-to-value mapping against the call contract,
only then build the widgets, and display the DOM widgets plus (in manual
mode) the trigger button and always the output area.  The fixed wrappers
stay in the kwargs widgets but are filtered out of children because they
are not DOMWidgets. -/
def interactiveInit (ps : List Param) (kwargs : List (String × PyVal))
    (manual clearOut : Bool) : Except PyError InteractiveState :=
  match findAbbreviations ps kwargs with
  | .error e => .error e
  | .ok nks =>
      match getcallargs ps (nks.map fun t => (t.1, t.2.1)) with
      | .error e => .error e
      | .ok _ =>
          match widgetsFromAbbreviations nks with
          | .error e => .error e
          | .ok ws =>
              let c0 := ws.filter PyVal.isDOMWidget
              let c1 := if manual then c0 ++ [PyVal.wButton "Run" false] else c0
              .ok { widgets := ws
                    children := c1 ++ [PyVal.wOutput]
                    manual := manual
                    clearOutput := clearOut
                    buttonDisabled := false
                    result := .pynone
                    curKwargs := [] }

/-- One observable event of a call_f invocation: a write to the trigger
disabled flag, the call of the target function, the display of a result,
or the report of a caught exception through the host error channel. -/
inductive CallEvent where
  | setDisabled (b : Bool)
  | invokeF
  | displayResult
  | reportError
deriving Repr, DecidableEq

/-- The outcome of one call_f invocation: the new container state, the
ordered event trace, whether the target function was invoked and with
which arguments, and whether a caught exception was reported. -/
structure CallResult where
  state : InteractiveState
  trace : List CallEvent
  fCalled : Bool
  callArgs : Option (List (String × PyVal))
  errorReported : Bool

/-- The target function: keyword arguments in, a result or a raised
exception out. -/
def PyFunc : Type := List (String × PyVal) → Except PyError PyVal

/-- The widget collection loop of call_f (lines 170-172): read each
widget value through get_interact_value into the invocation state; stops
with the partial dict and the exception at the first widget whose lookup
or extraction raises (for a fixed wrapper the lookup itself raises
AttributeError, see getInteractValue). -/
def collectKwargs : List PyVal → List (String × PyVal) →
    List (String × PyVal) × Option PyError
  | [], acc => (acc, none)
  | w :: rest, acc =>
      match getInteractValue w with
      | .error e => (acc, some e)
      | .ok v => collectKwargs rest (dictSet acc w.kwargName v)

/-- Embedding of interactive.call_f (lines 165-187): reset the invocation
state; in manual mode disable the trigger; inside try, collect current
widget values and call the target function, displaying a non-None result;
any exception from the loop or the call is caught and reported through
the host error channel (get_ipython().showtraceback() or a log warning),
never propagated; finally, in manual mode, re-enable the trigger. -/
def callF (f : PyFunc) (st0 : InteractiveState) : CallResult :=
  let st1 := { st0 with curKwargs := [] }
  let preTrace : List CallEvent :=
    if st1.manual then [.setDisabled true] else []
  let st2 := if st1.manual then { st1 with buttonDisabled := true } else st1
  let fin := fun (st : InteractiveState) (tr : List CallEvent)
      (called : Bool) (args : Option (List (String × PyVal))) (err : Bool) =>
    let st3 := if st.manual then { st with buttonDisabled := false } else st
    let tr3 := if st.manual then tr ++ [CallEvent.setDisabled false] else tr
    CallResult.mk st3 tr3 called args err
  match collectKwargs st2.widgets [] with
  | (kw, some _) =>
      fin { st2 with curKwargs := kw } (preTrace ++ [.reportError]) false none true
  | (kw, none) =>
      let st3 := { st2 with curKwargs := kw }
      match f kw with
      | .error _ =>
          fin st3 (preTrace ++ [.invokeF, .reportError]) true (some kw) true
      | .ok r =>
          let st4 := { st3 with result := r }
          let tr :=
            match r with
            | .pynone => preTrace ++ [.invokeF]
            | _ => preTrace ++ [.invokeF, .displayResult]
          fin st4 tr true (some kw) false

/-- The current value of a range control. -/
def sliderValue : PyVal → Option PyNum
  | .wIntSlider v _ _ _ _ _ => some v
  | .wFloatSlider v _ _ _ _ _ => some v
  | _ => none

/-- The lower bound of a range control. -/
def sliderMinOf : PyVal → Option PyNum
  | .wIntSlider _ a _ _ _ _ => some a
  | .wFloatSlider _ a _ _ _ _ => some a
  | _ => none

/-- The upper bound of a range control. -/
def sliderMaxOf : PyVal → Option PyNum
  | .wIntSlider _ _ b _ _ _ => some b
  | .wFloatSlider _ _ b _ _ _ => some b
  | _ => none

/-- True exactly for the integer range control. -/
def isIntSliderB : PyVal → Bool
  | .wIntSlider _ _ _ _ _ _ => true
  | _ => false

/-- The midpoint value the source computes for a 2-element range: for two
ints, min plus the floored half difference; otherwise the exact float
midpoint expression min + (max - min) / 2. -/
def tupleMid : PyNum → PyNum → PyNum
  | .pint m, .pint M => .pint (m + (M - m).fdiv 2)
  | a, b => .pfloat (a.toRat + (b.toRat - a.toRat) / 2)

/-- A sample parameter with a declared default, used to evaluate the
resolver on concrete inputs. -/
def paramA : Param :=
  { name := "a", kind := .posOrKw,
    default := some (.num (.pint 1)), annotation := none }

/-- A target function that always raises, used to exercise the exception
paths on concrete containers. -/
def fBoom : PyFunc := fun _ => .error (.valueError "boom")

/-- The container state that interactiveInit produces for a one-parameter
function with the override x = fixed(5): the fixed wrapper (labelled and
bound to x) is among the kwargs widgets but not among the children. -/
def fixedContainerState : InteractiveState :=
  { widgets := [PyVal.wFixed (.num (.pint 5)) "x" "x"]
    children := [.wOutput]
    manual := false
    clearOutput := true
    buttonDisabled := false
    result := .pynone
    curKwargs := [] }

/-- A small concrete container with one int slider, used to evaluate the
dispatcher on concrete inputs. -/
def smallSliderState (manual : Bool) : InteractiveState :=
  { widgets := [.wIntSlider (.pint 1) (.pint 0) (.pint 2) none "a" "a"]
    children := [.wIntSlider (.pint 1) (.pint 0) (.pint 2) none "a" "a", .wOutput]
    manual := manual
    clearOutput := true
    buttonDisabled := false
    result := .pynone
    curKwargs := [] }

/-! Helper lemmas characterising the numeric core. -/

lemma toRat_padd (x y : PyNum) : (padd x y).toRat = x.toRat + y.toRat := by
  cases x <;> cases y <;> simp [padd, toRat]

lemma toRat_psub (x y : PyNum) : (psub x y).toRat = x.toRat - y.toRat := by
  cases x <;> cases y <;> simp [psub, toRat]

lemma toRat_pmul (x y : PyNum) : (pmul x y).toRat = x.toRat * y.toRat := by
  cases x <;> cases y <;> simp [pmul, toRat]

lemma toRat_ptruediv (x y : PyNum) :
    (ptruediv x y).toRat = x.toRat / y.toRat := rfl

lemma toRat_pint (n : Int) : (pint n).toRat = (n : Rat) := rfl

/-- For a 2-element range with max greater than min, _get_min_max_value
returns the bounds unchanged and the midpoint value tupleMid. -/
lemma getMinMaxBase_two (a b : PyNum) (h : a.toRat < b.toRat) :
    getMinMaxBase (some a) (some b) none = .ok (a, b, tupleMid a b) := by
  cases a <;> cases b <;>
    simp [getMinMaxBase, tupleMid, psub, padd, ptruediv, pfloordiv, sameType,
      toRat, h, lt_of_lt_of_le]
  all_goals simp_all [toRat]

/-- For a 2-element range with max not greater than min, _get_min_max_value
raises the ValueError. -/
lemma getMinMaxBase_two_err (a b : PyNum) (h : ¬ a.toRat < b.toRat) :
    getMinMaxBase (some a) (some b) none = .error (.valueError rangeErrMsg) := by
  cases a <;> cases b <;> simp [getMinMaxBase, toRat] <;> simp_all [toRat]

/-- widget_from_tuple on a 2-tuple of reals with max greater than min:
a slider at the tupleMid midpoint, integer-kinded exactly when every
element is an int. -/
lemma widgetFromTuple_two (a b : PyNum) (h : a.toRat < b.toRat) :
    widgetFromTuple (.tup [.num a, .num b]) =
      .ok (some (if a.isInt && b.isInt then
          .wIntSlider (tupleMid a b) a b none "" ""
        else .wFloatSlider (tupleMid a b) a b none "" "")) := by
  simp only [widgetFromTuple, getMinMaxValue, getMinMaxBase_two a b h, snapStep]
  by_cases hii : (a.isInt && b.isInt) = true <;> simp [hii]

/-- widget_from_tuple on a 3-tuple with a nonpositive step raises before
looking at the bounds. -/
lemma widgetFromTuple_three_step_le (a b s : PyNum) (h : s.toRat ≤ 0) :
    widgetFromTuple (.tup [.num a, .num b, .num s]) =
      .error (.valueError stepErrMsg) := by
  simp only [widgetFromTuple]
  rw [if_pos h]

/-- widget_from_tuple on a 3-tuple with positive step and max greater than
min: a slider whose value is the midpoint snapped onto the step lattice. -/
lemma widgetFromTuple_three (a b s : PyNum) (hs : ¬ s.toRat ≤ 0)
    (hab : a.toRat < b.toRat) :
    widgetFromTuple (.tup [.num a, .num b, .num s]) =
      .ok (some (if a.isInt && b.isInt && s.isInt then
          .wIntSlider (snapStep a (tupleMid a b) (some s)) a b (some s) "" ""
        else
          .wFloatSlider (snapStep a (tupleMid a b) (some s)) a b (some s) "" "")) := by
  simp only [widgetFromTuple, getMinMaxValue, getMinMaxBase_two a b hab]
  rw [if_neg hs]
  by_cases hii : (a.isInt && b.isInt && s.isInt) = true <;> simp [hii]

/-! The claims are stated against the definitions above; each theorem is
annotated with the claim id it settles. -/

/-- C2: for an introspectable function, the resolved name-to-value mapping
is validated against the call contract before any control is created: when
the validation fails, construction returns exactly the validation error —
regardless of whether the widget construction downstream of it would
succeed or fail with a different error — because widget construction is
only reached after validation passes. -/
theorem validation_error_aborts_init (ps : List Param)
    (kw : List (String × PyVal)) (nks : List (String × PyVal × Option PyVal))
    (e : PyError) (m c : Bool)
    (hres : findAbbreviations ps kw = .ok nks)
    (hval : getcallargs ps (nks.map fun t => (t.1, t.2.1)) = .error e) :
    interactiveInit ps kw m c = .error e := by
  simp [interactiveInit, hres, hval]

/-- C2 witness: a function with a required positional-only parameter
(which a keyword-only call can never bind) passes abbreviation resolution
with no triples but fails the call-contract validation, and construction
aborts with that error. -/
theorem validation_error_aborts_init_witness :
    interactiveInit
      [{ name := "x", kind := .posOnly, default := none, annotation := none }]
      [] false true =
      .error (.typeError ("missing a required argument: " ++ "x")) :=
  validation_error_aborts_init _ _ [] _ false true
    (by with_unfolding_all rfl) (by with_unfolding_all rfl)

/-- C3: for a positional-or-keyword or keyword-only parameter the resolver
takes, in strict priority order, the caller override (consumed from the
override mapping), else the annotation, else the declared default, and
fails with an error naming the parameter when none applies. -/
theorem abbreviation_priority_order (p : Param) (kw : List (String × PyVal))
    (hk : p.kind = ParamKind.posOrKw ∨ p.kind = ParamKind.kwOnly) :
    (∀ v, kwLookup kw p.name = some v →
      yieldAbbrevs p kw = ([(p.name, some v, p.default)], kwErase kw p.name)) ∧
    (∀ a, kwLookup kw p.name = none → p.annotation = some a →
      yieldAbbrevs p kw = ([(p.name, some a, p.default)], kw)) ∧
    (∀ d, kwLookup kw p.name = none → p.annotation = none → p.default = some d →
      yieldAbbrevs p kw = ([(p.name, some d, some d)], kw)) ∧
    (kwLookup kw p.name = none → p.annotation = none → p.default = none →
      findAbbreviations [p] kw =
        .error (.valueError (missingAbbrevMsg p.name))) := by
  refine ⟨?_, ?_, ?_, ?_⟩
  · intro v hv
    rcases hk with h | h <;> simp [yieldAbbrevs, h, hv]
  · intro a h0 ha
    rcases hk with h | h <;> simp [yieldAbbrevs, h, h0, ha]
  · intro d h0 ha hd
    rcases hk with h | h <;> simp [yieldAbbrevs, h, h0, ha, hd]
  · intro h0 ha hd
    rcases hk with h | h <;>
      simp [findAbbreviations, yieldAbbrevs, processYields, h, h0, ha, hd]

/-- C3 witness: a parameter that has a default and an annotation and is
also overridden resolves to the override (priority override over
annotation over default), consuming it from the mapping. -/
theorem abbreviation_priority_order_witness :
    yieldAbbrevs
      { name := "x", kind := .posOrKw,
        default := some (.num (.pint 2)), annotation := some (.num (.pint 7)) }
      [("x", .num (.pint 9))] =
      ([("x", some (.num (.pint 9)), some (.num (.pint 2)))],
        kwErase [("x", .num (.pint 9))] "x") :=
  (abbreviation_priority_order _ _ (Or.inl rfl)).1 _ (by with_unfolding_all rfl)

/-- Midpoint identity for ints: the source computes min + (max - min) // 2,
which equals (min + max) // 2 under Python floor division. -/
lemma midpoint_fdiv (m M : Int) : m + (M - m).fdiv 2 = (m + M).fdiv 2 := by
  rw [Int.fdiv_eq_ediv _ (by norm_num), Int.fdiv_eq_ediv _ (by norm_num)]
  omega

/-- The midpoint value lies between the bounds. -/
lemma tupleMid_bounds (a b : PyNum) (h : a.toRat < b.toRat) :
    a.toRat ≤ (tupleMid a b).toRat ∧ (tupleMid a b).toRat ≤ b.toRat := by
  cases a with
  | pint m =>
    cases b with
    | pint M =>
      simp only [tupleMid, toRat] at h ⊢
      have hmM : m < M := by exact_mod_cast h
      have h1 : m ≤ m + (M - m).fdiv 2 := by
        rw [Int.fdiv_eq_ediv _ (by norm_num)]; omega
      have h2 : m + (M - m).fdiv 2 ≤ M := by
        rw [Int.fdiv_eq_ediv _ (by norm_num)]; omega
      exact ⟨by exact_mod_cast h1, by exact_mod_cast h2⟩
    | pfloat q =>
      simp only [tupleMid, toRat] at h ⊢
      constructor <;> linarith
  | pfloat p =>
    cases b <;> simp only [tupleMid, toRat] at h ⊢ <;>
      constructor <;> linarith

/-- C4: a 2-tuple abbreviation of reals with max greater than min yields a
range control with those bounds whose initial value is (min + max) / 2,
computed with Python floor division exactly when both bounds are ints (and
then the control is the integer range control, so the value is an int if
and only if both bounds are); when max is not greater than min the factory
raises instead. -/
theorem two_tuple_midpoint (a b : PyNum) :
    (a.toRat < b.toRat →
      ∃ w, widgetFromTuple (.tup [.num a, .num b]) = .ok (some w) ∧
        sliderMinOf w = some a ∧ sliderMaxOf w = some b ∧
        ((a.isInt && b.isInt) = true →
          sliderValue w = some (.pint ((a.toInt + b.toInt).fdiv 2)) ∧
          isIntSliderB w = true) ∧
        ((a.isInt && b.isInt) = false →
          sliderValue w = some (.pfloat ((a.toRat + b.toRat) / 2)) ∧
          isIntSliderB w = false)) ∧
    (¬ a.toRat < b.toRat →
      widgetFromTuple (.tup [.num a, .num b]) =
        .error (.valueError rangeErrMsg)) := by
  constructor
  · intro h
    by_cases hii : (a.isInt && b.isInt) = true
    · refine ⟨.wIntSlider (tupleMid a b) a b none "" "", ?_, rfl, rfl, ?_, ?_⟩
      · rw [widgetFromTuple_two a b h, if_pos hii]
      · intro _
        refine ⟨?_, rfl⟩
        cases a with
        | pint m =>
          cases b with
          | pint M => simp [tupleMid, sliderValue, toInt, midpoint_fdiv]
          | pfloat q => simp [isInt] at hii
        | pfloat p => simp [isInt] at hii
      · intro hff; rw [hii] at hff; cases hff
    · have hff : (a.isInt && b.isInt) = false := by
        simpa using hii
      refine ⟨.wFloatSlider (tupleMid a b) a b none "" "", ?_, rfl, rfl, ?_, ?_⟩
      · rw [widgetFromTuple_two a b h, if_neg hii]
      · intro htt; rw [htt] at hff; cases hff
      · intro _
        refine ⟨?_, rfl⟩
        have hmid : tupleMid a b = .pfloat (a.toRat + (b.toRat - a.toRat) / 2) := by
          cases a <;> cases b <;> first
            | rfl
            | simp [isInt] at hff
        rw [hmid]
        have : a.toRat + (b.toRat - a.toRat) / 2 = (a.toRat + b.toRat) / 2 := by
          ring
        simp [sliderValue, this]
  · intro h
    simp only [widgetFromTuple, getMinMaxValue, getMinMaxBase_two_err a b h]

/-- C4 witness: the 2-tuple (0, 10) of ints resolves to the integer range
control with value (0 + 10) // 2. -/
theorem two_tuple_midpoint_witness :
    (PyNum.pint 0).toRat < (PyNum.pint 10).toRat ∧
    ∃ w, widgetFromTuple (.tup [.num (.pint 0), .num (.pint 10)]) =
        .ok (some w) ∧
      sliderMinOf w = some (.pint 0) ∧ sliderMaxOf w = some (.pint 10) ∧
      (((PyNum.pint 0).isInt && (PyNum.pint 10).isInt) = true →
        sliderValue w =
          some (.pint (((PyNum.pint 0).toInt + (PyNum.pint 10).toInt).fdiv 2)) ∧
        isIntSliderB w = true) ∧
      (((PyNum.pint 0).isInt && (PyNum.pint 10).isInt) = false →
        sliderValue w =
          some (.pfloat (((PyNum.pint 0).toRat + (PyNum.pint 10).toRat) / 2)) ∧
        isIntSliderB w = false) :=
  ⟨by norm_num [PyNum.toRat],
    (two_tuple_midpoint (.pint 0) (.pint 10)).1 (by norm_num [PyNum.toRat])⟩

/-- C5: whenever a 3-tuple abbreviation resolves to a range control, the
step was positive and the control value v satisfies min ≤ v ≤ max with
v - min a nonnegative integer multiple of step. -/
theorem three_tuple_value_on_lattice (a b s : PyNum) (w : PyVal)
    (h : widgetFromTuple (.tup [.num a, .num b, .num s]) = .ok (some w)) :
    0 < s.toRat ∧ ∃ v : PyNum, sliderValue w = some v ∧
      a.toRat ≤ v.toRat ∧ v.toRat ≤ b.toRat ∧
      ∃ k : ℕ, v.toRat = a.toRat + k * s.toRat := by
  by_cases hs : s.toRat ≤ 0
  · rw [widgetFromTuple_three_step_le a b s hs] at h
    cases h
  by_cases hab : a.toRat < b.toRat
  · rw [widgetFromTuple_three a b s hs hab] at h
    have hw : (if a.isInt && b.isInt && s.isInt then
        PyVal.wIntSlider (snapStep a (tupleMid a b) (some s)) a b (some s) "" ""
      else
        PyVal.wFloatSlider (snapStep a (tupleMid a b) (some s)) a b
          (some s) "" "") = w := by
      simpa using h
    have hs' : 0 < s.toRat := not_le.mp hs
    refine ⟨hs', snapStep a (tupleMid a b) (some s), ?_, ?_⟩
    · rw [← hw]
      by_cases hii : (a.isInt && b.isInt && s.isInt) = true
      · rw [if_pos hii]; rfl
      · rw [if_neg hii]; rfl
    · obtain ⟨hm1, hm2⟩ := tupleMid_bounds a b hab
      have hv : (snapStep a (tupleMid a b) (some s)).toRat =
          a.toRat +
            (pytrunc (((tupleMid a b).toRat - a.toRat) / s.toRat) : Rat) *
              s.toRat := by
        simp only [snapStep, toRat_padd, toRat_pmul, toRat_ptruediv,
          toRat_psub, toRat_pint]
      have hq0 : 0 ≤ ((tupleMid a b).toRat - a.toRat) / s.toRat :=
        div_nonneg (by linarith) hs'.le
      have htr : pytrunc (((tupleMid a b).toRat - a.toRat) / s.toRat) =
          ⌊((tupleMid a b).toRat - a.toRat) / s.toRat⌋ := if_pos hq0
      have htick0 : 0 ≤ ⌊((tupleMid a b).toRat - a.toRat) / s.toRat⌋ :=
        Int.floor_nonneg.mpr hq0
      have hfl : (⌊((tupleMid a b).toRat - a.toRat) / s.toRat⌋ : Rat) ≤
          ((tupleMid a b).toRat - a.toRat) / s.toRat := Int.floor_le _
      have hmul : (⌊((tupleMid a b).toRat - a.toRat) / s.toRat⌋ : Rat) *
          s.toRat ≤ (tupleMid a b).toRat - a.toRat := by
        calc (⌊((tupleMid a b).toRat - a.toRat) / s.toRat⌋ : Rat) * s.toRat
            ≤ (((tupleMid a b).toRat - a.toRat) / s.toRat) * s.toRat :=
              mul_le_mul_of_nonneg_right hfl hs'.le
          _ = (tupleMid a b).toRat - a.toRat := by
              field_simp
      refine ⟨?_, ?_, ?_⟩
      · rw [hv, htr]
        have : 0 ≤ (⌊((tupleMid a b).toRat - a.toRat) / s.toRat⌋ : Rat) *
            s.toRat :=
          mul_nonneg (by exact_mod_cast htick0) hs'.le
        linarith
      · rw [hv, htr]
        linarith
      · refine ⟨⌊((tupleMid a b).toRat - a.toRat) / s.toRat⌋.toNat, ?_⟩
        rw [hv, htr]
        congr 1
        congr 1
        exact_mod_cast (Int.toNat_of_nonneg htick0).symm
  · have herr : widgetFromTuple (.tup [.num a, .num b, .num s]) =
        .error (.valueError rangeErrMsg) := by
      simp only [widgetFromTuple, getMinMaxValue, getMinMaxBase_two_err a b hab,
        if_neg hs]
    rw [herr] at h
    cases h

/-- C5 witness: the 3-tuple (0, 10, 3) resolves and its value 3 lies on
the lattice 0 + k * 3 inside the bounds. -/
theorem three_tuple_value_on_lattice_witness :
    0 < (PyNum.pint 3).toRat ∧ ∃ v : PyNum,
      sliderValue (.wIntSlider (.pint 3) (.pint 0) (.pint 10)
        (some (.pint 3)) "" "") = some v ∧
      (PyNum.pint 0).toRat ≤ v.toRat ∧ v.toRat ≤ (PyNum.pint 10).toRat ∧
      ∃ k : ℕ, v.toRat = (PyNum.pint 0).toRat + k * (PyNum.pint 3).toRat :=
  three_tuple_value_on_lattice (.pint 0) (.pint 10) (.pint 3)
    (.wIntSlider (.pint 3) (.pint 0) (.pint 10) (some (.pint 3)) "" "")
    (by with_unfolding_all rfl)

/-- C6: a 3-tuple abbreviation of reals whose step is nonpositive always
raises the numeric-constraint ValueError instead of producing a control. -/
theorem three_tuple_nonpositive_step_errors (a b s : PyNum)
    (h : s.toRat ≤ 0) :
    widgetFromTuple (.tup [.num a, .num b, .num s]) =
      .error (.valueError stepErrMsg) :=
  widgetFromTuple_three_step_le a b s h

/-- C6 witness: the tuple (0, 10, 0) fails with the step error. -/
theorem three_tuple_nonpositive_step_errors_witness :
    widgetFromTuple (.tup [.num (.pint 0), .num (.pint 10), .num (.pint 0)]) =
      .error (.valueError stepErrMsg) :=
  three_tuple_nonpositive_step_errors (.pint 0) (.pint 10) (.pint 0)
    (by norm_num [PyNum.toRat])

/-- C7: a list abbreviation produces a choice control whose option list is
that list, in order; a mapping abbreviation produces a choice control whose
options are the (name, value) pairs in mapping iteration order. -/
theorem iterable_options_preserved :
    (∀ l : List PyVal, widgetFromAbbrev (.plist l) none =
      .ok (some (.wDropdown (.plist l) "" ""))) ∧
    (∀ es : List (String × PyVal), widgetFromAbbrev (.pdict es) none =
      .ok (some (.wDropdown
        (.plist (es.map fun e => .tup [.pystr e.1, e.2])) "" ""))) := by
  constructor
  · intro l; rfl
  · intro es; rfl

/-- C9: in manual mode every invocation of the callback starts by setting
the trigger disabled flag and ends by clearing it, whatever happens in
between (value collection failure, target raising, or normal completion),
and the final state has the trigger enabled. -/
theorem manual_trigger_disabled_during_call (f : PyFunc)
    (st : InteractiveState) (h : st.manual = true) :
    (∃ mid, (callF f st).trace =
      CallEvent.setDisabled true :: (mid ++ [CallEvent.setDisabled false])) ∧
    (callF f st).state.buttonDisabled = false := by
  unfold callF
  dsimp only
  rw [h]
  simp only [if_true]
  rcases hc : collectKwargs st.widgets [] with ⟨kw, oe⟩
  cases oe with
  | some e => exact ⟨⟨[.reportError], rfl⟩, rfl⟩
  | none =>
    dsimp only
    cases hf : f kw with
    | error e => exact ⟨⟨[.invokeF, .reportError], rfl⟩, rfl⟩
    | ok r =>
      cases r <;> first
        | exact ⟨⟨[.invokeF], rfl⟩, rfl⟩
        | exact ⟨⟨[.invokeF, .displayResult], rfl⟩, rfl⟩

/-- C9 witness: a concrete manual container whose target function raises
still re-enables the trigger and has the bracketing trace. -/
theorem manual_trigger_disabled_during_call_witness :
    (∃ mid, (callF fBoom (smallSliderState true)).trace =
      CallEvent.setDisabled true :: (mid ++ [CallEvent.setDisabled false])) ∧
    (callF fBoom (smallSliderState true)).state.buttonDisabled = false :=
  manual_trigger_disabled_during_call fBoom (smallSliderState true) rfl

/-- Any callF invocation leaves the widget list untouched. -/
lemma callF_widgets (f : PyFunc) (st : InteractiveState) :
    (callF f st).state.widgets = st.widgets := by
  unfold callF
  dsimp only
  cases hmm : st.manual <;>
    simp only [Bool.false_eq_true, if_false, if_true] <;>
    rcases hcc : collectKwargs st.widgets [] with ⟨kw, oe⟩ <;>
    cases oe <;>
    dsimp only
  all_goals
    cases hg : f kw with
    | error e2 => rfl
    | ok r => cases r <;> rfl

/-- When value collection succeeds, callF always reaches the target
function, whatever it returns. -/
lemma callF_fCalled_of_collect_none (g : PyFunc) (st : InteractiveState)
    (kw : List (String × PyVal))
    (hkw : collectKwargs st.widgets [] = (kw, none)) :
    (callF g st).fCalled = true := by
  unfold callF
  dsimp only
  cases hmm : st.manual <;>
    simp only [Bool.false_eq_true, if_false, if_true] <;>
    rw [hkw] <;>
    dsimp only <;>
    cases hg : g kw <;>
    rfl

/-- When value collection succeeds and the target raises, callF marks the
invocation as performed, reports the error, and keeps reportError in the
trace. -/
lemma callF_raise_fields (f : PyFunc) (st : InteractiveState)
    (kw : List (String × PyVal)) (e : PyError)
    (hkw : collectKwargs st.widgets [] = (kw, none))
    (hf2 : f kw = .error e) :
    (callF f st).fCalled = true ∧ (callF f st).errorReported = true ∧
    CallEvent.reportError ∈ (callF f st).trace := by
  unfold callF
  dsimp only
  cases hmm : st.manual <;>
    simp only [Bool.false_eq_true, if_false, if_true] <;>
    rw [hkw] <;>
    dsimp only <;>
    rw [hf2] <;>
    exact ⟨rfl, rfl, by simp⟩

/-- C8: when value collection succeeds and the target function raises, the
exception is caught inside the callback: the function was invoked, the
error is reported through the host channel (callF returns a CallResult, it
propagates nothing), the widgets are untouched, and a subsequent event is
processed normally (its callback again reaches the target function). -/
theorem raising_function_caught (f : PyFunc) (st : InteractiveState)
    (e : PyError)
    (hcollect : (collectKwargs st.widgets []).2 = none)
    (hf : f (collectKwargs st.widgets []).1 = .error e) :
    (callF f st).fCalled = true ∧
    (callF f st).errorReported = true ∧
    CallEvent.reportError ∈ (callF f st).trace ∧
    (callF f st).state.widgets = st.widgets ∧
    ∀ g : PyFunc, (callF g (callF f st).state).fCalled = true := by
  obtain ⟨kw, hkw⟩ : ∃ kw, collectKwargs st.widgets [] = (kw, none) :=
    ⟨(collectKwargs st.widgets []).1, by rw [← hcollect]⟩
  have hf2 : f kw = .error e := by
    rw [hkw] at hf
    exact hf
  obtain ⟨h1, h2, h3⟩ := callF_raise_fields f st kw e hkw hf2
  refine ⟨h1, h2, h3, callF_widgets f st, ?_⟩
  intro g
  exact callF_fCalled_of_collect_none g _ kw
    (by rw [callF_widgets f st, hkw])

/-- C8 witness: a concrete container whose target function always raises
reports the error, and the next event still reaches the target function. -/
theorem raising_function_caught_witness :
    (callF fBoom (smallSliderState false)).fCalled = true ∧
    (callF fBoom (smallSliderState false)).errorReported = true ∧
    CallEvent.reportError ∈ (callF fBoom (smallSliderState false)).trace ∧
    (callF fBoom (smallSliderState false)).state.widgets =
      (smallSliderState false).widgets ∧
    ∀ g : PyFunc,
      (callF g (callF fBoom (smallSliderState false)).state).fCalled = true :=
  raising_function_caught fBoom (smallSliderState false) (.valueError "boom")
    (by with_unfolding_all rfl) (by with_unfolding_all rfl)

/-- C1: the claim fails on the code.  A container built with the override
x = fixed(5) does keep the fixed wrapper out of the factory conversion and
out of the displayed children, but on every triggered invocation call_f
looks up get_interact_value on the fixed instance; the fixed class of
interaction.py subclasses HasTraits only and defines no such attribute, so
the lookup raises AttributeError inside the try block, the exception is
caught and reported, and the target function is never invoked — its value
5 is never passed to the function, contradicting the claim. -/
theorem fixed_override_never_reaches_f :
    ∃ st : InteractiveState,
      interactiveInit
        [{ name := "x", kind := .posOrKw, default := none, annotation := none }]
        [("x", PyVal.wFixed (.num (.pint 5)) "" "")] false true = .ok st ∧
      st.widgets = [PyVal.wFixed (.num (.pint 5)) "x" "x"] ∧
      (∀ cw ∈ st.children, cw.isFixed = false) ∧
      ∀ f : PyFunc,
        (callF f st).fCalled = false ∧
        (callF f st).callArgs = none ∧
        (callF f st).errorReported = true := by
  refine ⟨fixedContainerState, by with_unfolding_all rfl,
    by with_unfolding_all rfl, ?_, ?_⟩
  · intro cw hcw
    simp only [fixedContainerState, List.mem_singleton] at hcw
    rw [hcw]
    rfl
  · intro f
    exact ⟨rfl, rfl, rfl⟩

/-- Erasing one key leaves lookups of other keys unchanged. -/
lemma kwLookup_erase_ne (kw : List (String × PyVal)) (n m : String)
    (h : m ≠ n) : kwLookup (kwErase kw n) m = kwLookup kw m := by
  induction kw with
  | nil => rfl
  | cons e r ih =>
    by_cases he : e.1 = n
    · have hne : ¬ e.1 = m := by
        rw [he]
        exact fun hh => h hh.symm
      simp [kwErase, kwLookup, he, hne, ih, h, Ne.symm h]
    · by_cases hm : e.1 = m
      · simp [kwErase, kwLookup, he, hm, h, Ne.symm h]
      · simp [kwErase, kwLookup, he, hm, ih, h, Ne.symm h]

/-- Erasures of distinct keys commute. -/
lemma kwErase_comm (kw : List (String × PyVal)) (a b : String) :
    kwErase (kwErase kw a) b = kwErase (kwErase kw b) a := by
  by_cases hab : a = b
  · rw [hab]
  · induction kw with
    | nil => rfl
    | cons e r ih =>
      by_cases ha : e.1 = a
      · by_cases hb : e.1 = b
        · exact absurd (ha.symm.trans hb) hab
        · simp [kwErase, ha, hb, hab, Ne.symm hab, ih]
      · by_cases hb : e.1 = b
        · simp [kwErase, ha, hb, hab, Ne.symm hab, ih]
        · simp [kwErase, ha, hb, ih]

/-- A parameter that is not VAR_KEYWORD and whose name differs from n
never inspects the override entry named n: its yields over the erased
mapping are the same, and the threaded mapping is the erased one. -/
lemma yield_erase (p : Param) (kw : List (String × PyVal)) (n : String)
    (hk : p.kind ≠ ParamKind.varKw) (hn : p.name ≠ n) :
    yieldAbbrevs p (kwErase kw n) =
      ((yieldAbbrevs p kw).1, kwErase (yieldAbbrevs p kw).2 n) := by
  cases hkind : p.kind
  case varKw => exact absurd hkind hk
  case posOnly => simp [yieldAbbrevs, hkind]
  case varPos => simp [yieldAbbrevs, hkind]
  all_goals
    simp only [yieldAbbrevs, hkind]
    rw [kwLookup_erase_ne kw n p.name hn]
    cases hl : kwLookup kw p.name
    · cases p.annotation <;> cases p.default <;> simp
    · simp [kwErase_comm]

/-- Abbreviation resolution never looks at an override entry whose name
matches no parameter (when there is no VAR_KEYWORD parameter): erasing it
does not change the result. -/
lemma findAbbreviations_erase (ps : List Param) (n : String)
    (hNoVar : ∀ p ∈ ps, p.kind ≠ ParamKind.varKw)
    (hNot : ∀ p ∈ ps, p.name ≠ n) (kw : List (String × PyVal)) :
    findAbbreviations ps (kwErase kw n) = findAbbreviations ps kw := by
  induction ps generalizing kw with
  | nil => rfl
  | cons p rest ih =>
    have h1 := yield_erase p kw n (hNoVar p (by simp)) (hNot p (by simp))
    rw [findAbbreviations, findAbbreviations, h1]
    dsimp only
    rw [ih (fun q hq => hNoVar q (by simp [hq]))
      (fun q hq => hNot q (by simp [hq]))]

/-- Every triple yielded for a non-VAR_KEYWORD parameter carries that
parameter name. -/
lemma yield_names (p : Param) (kw : List (String × PyVal))
    (hk : p.kind ≠ ParamKind.varKw) :
    ∀ y ∈ (yieldAbbrevs p kw).1, y.1 = p.name := by
  cases hkind : p.kind
  case varKw => exact absurd hkind hk
  case posOnly => simp [yieldAbbrevs, hkind]
  case varPos => simp [yieldAbbrevs, hkind]
  all_goals
    simp only [yieldAbbrevs, hkind]
    cases hl : kwLookup kw p.name
    · cases p.annotation
      · cases p.default <;> simp
      · simp
    · simp

/-- processYields keeps only names that occur among the yields. -/
lemma processYields_names (ys : List (String × Option PyVal × Option PyVal))
    (out : List (String × PyVal × Option PyVal))
    (h : processYields ys = .ok out) :
    ∀ t ∈ out, ∃ y ∈ ys, t.1 = y.1 := by
  induction ys generalizing out with
  | nil =>
    cases h
    simp
  | cons y rest ih =>
    obtain ⟨n, v?, d⟩ := y
    cases v? with
    | none => cases h
    | some v =>
      rw [processYields] at h
      cases hrec : processYields rest with
      | error e => rw [hrec] at h; cases h
      | ok tail =>
        rw [hrec] at h
        cases h
        intro t ht
        rcases List.mem_cons.mp ht with h1 | h1
        · exact ⟨(n, some v, d), by simp, by rw [h1]⟩
        · obtain ⟨y2, hy2, hty⟩ := ih tail hrec t h1
          exact ⟨y2, by simp [hy2], hty⟩

/-- With no VAR_KEYWORD parameter, every resolved triple is named after a
declared parameter. -/
lemma findAbbreviations_names (ps : List Param) (kw : List (String × PyVal))
    (nks : List (String × PyVal × Option PyVal))
    (hNoVar : ∀ p ∈ ps, p.kind ≠ ParamKind.varKw)
    (h : findAbbreviations ps kw = .ok nks) :
    ∀ t ∈ nks, ∃ p ∈ ps, t.1 = p.name := by
  induction ps generalizing kw nks with
  | nil =>
    cases h
    simp
  | cons p rest ih =>
    rw [findAbbreviations] at h
    cases hpy : processYields (yieldAbbrevs p kw).1 with
    | error e => rw [hpy] at h; cases h
    | ok here =>
      rw [hpy] at h
      cases hrec : findAbbreviations rest (yieldAbbrevs p kw).2 with
      | error e => rw [hrec] at h; cases h
      | ok tail =>
        rw [hrec] at h
        cases h
        intro t ht
        rcases List.mem_append.mp ht with h1 | h1
        · obtain ⟨y, hy, hty⟩ := processYields_names _ here hpy t h1
          refine ⟨p, by simp, ?_⟩
          rw [hty]
          exact yield_names p kw (hNoVar p (by simp)) y hy
        · obtain ⟨q, hq, htq⟩ :=
            ih _ tail (fun q hq => hNoVar q (by simp [hq])) hrec t h1
          exact ⟨q, by simp [hq], htq⟩

/-- C10: for an introspectable function with no variadic-keyword
parameter, an override whose name matches no declared parameter is
silently dropped: construction behaves exactly as if the entry were
absent (so it raises no error for it and builds no control for it and the
entry is never passed to the target function), and no resolved triple
carries that name. -/
theorem unknown_override_silently_dropped (ps : List Param)
    (kw : List (String × PyVal)) (n : String) (m c : Bool)
    (hNoVar : ∀ p ∈ ps, p.kind ≠ ParamKind.varKw)
    (hNot : ∀ p ∈ ps, p.name ≠ n) :
    interactiveInit ps kw m c = interactiveInit ps (kwErase kw n) m c ∧
    ∀ nks, findAbbreviations ps kw = .ok nks → ∀ t ∈ nks, t.1 ≠ n := by
  constructor
  · unfold interactiveInit
    rw [findAbbreviations_erase ps n hNoVar hNot kw]
  · intro nks h t ht
    obtain ⟨p, hp, hpt⟩ := findAbbreviations_names ps kw nks hNoVar h t ht
    rw [hpt]
    exact hNot p hp

/-- C10 witness: an unknown override zzz on a one-parameter function is
ignored: construction equals the construction without it, and no triple is
named zzz. -/
theorem unknown_override_silently_dropped_witness :
    interactiveInit [paramA] [("zzz", .num (.pint 9))] false true =
      interactiveInit [paramA]
        (kwErase [("zzz", .num (.pint 9))] "zzz") false true ∧
    ∀ nks, findAbbreviations [paramA] [("zzz", .num (.pint 9))] = .ok nks →
      ∀ t ∈ nks, t.1 ≠ "zzz" :=
  unknown_override_silently_dropped [paramA] [("zzz", .num (.pint 9))]
    "zzz" false true
    (by
      intro p hp
      rw [List.mem_singleton] at hp
      rw [hp]
      decide)
    (by
      intro p hp
      rw [List.mem_singleton] at hp
      rw [hp]
      decide)

end Interaction
